import Mathlib

/-!
Verification development for the kel-cluster resource lifecycle engine
(`kel/cluster/components.py` and `kel/cluster/cluster.py`).

The Python code manipulates YAML/JSON documents, talks to a cluster API
through handles whose `.obj` field holds the document, derives deployment
keys with `hashlib.sha1` over `json.dumps(..., sort_keys=True)` output, and
sequences provider/cluster-API side effects.  The shallow embedding below
mirrors those pieces:

* `JValue` models the JSON-like documents (mutual inductive so that every
  function on it is structurally recursive and kernel-reducible);
* `dumpsV`/`sortJson` model `json.dumps(doc, sort_keys=True)` with the
  default separators;
* `sha1Hex` is a full SHA-1 implementation over byte lists (Nat < 256);
* Python exceptions are modelled with `Except String`;
* side effects (provider calls, cluster-API writes and reads) are events in
  a writer/state/except monad `M`, so that traces of lifecycle operations
  can be compared against the specification's ordering claims.
-/

set_option maxRecDepth 40000

/-! ## JSON documents -/

mutual

inductive JValue where
  | null : JValue
  | bool : Bool → JValue
  | num : Int → JValue
  | str : String → JValue
  | arr : JList → JValue
  | obj : JFields → JValue

inductive JList where
  | nil : JList
  | cons : JValue → JList → JList

inductive JFields where
  | nil : JFields
  | cons : String → JValue → JFields → JFields

end

/-- Build a `JFields` from a Lean list of key/value pairs. -/
def jf : List (String × JValue) → JFields
  | [] => .nil
  | (k, v) :: r => .cons k v (jf r)

/-- Build a `JList` from a Lean list. -/
def jl : List JValue → JList
  | [] => .nil
  | v :: r => .cons v (jl r)

/-- JSON object literal helper. -/
def jobj (l : List (String × JValue)) : JValue := .obj (jf l)

/-- JSON array literal helper. -/
def jarr (l : List JValue) : JValue := .arr (jl l)

def JList.toList : JList → List JValue
  | .nil => []
  | .cons v r => v :: r.toList

/-- First value bound to key `k`, as in a Python dict lookup (dicts rendered
from YAML have unique keys). -/
def JFields.lookup : JFields → String → Option JValue
  | .nil, _ => none
  | .cons k v r, k2 => if k = k2 then some v else r.lookup k2

mutual

/-- Python `==` on document values (structural; all comparisons made by the
source are between scalar strings). -/
def jeq : JValue → JValue → Bool
  | .null, .null => true
  | .bool a, .bool b => a == b
  | .num a, .num b => a == b
  | .str a, .str b => a == b
  | .arr a, .arr b => jeqList a b
  | .obj a, .obj b => jeqFields a b
  | _, _ => false

def jeqList : JList → JList → Bool
  | .nil, .nil => true
  | .cons a as, .cons b bs => jeq a b && jeqList as bs
  | _, _ => false

def jeqFields : JFields → JFields → Bool
  | .nil, .nil => true
  | .cons k a as, .cons k2 b bs => k == k2 && jeq a b && jeqFields as bs
  | _, _ => false

end

/-! ## Python dict/string primitives used by the source -/

/-- `v[k]` on a document: `KeyError` when the key is absent, `TypeError`
when `v` is not a dict. -/
def jGet (v : JValue) (k : String) : Except String JValue :=
  match v with
  | .obj fs =>
      match fs.lookup k with
      | some x => .ok x
      | none => .error ("KeyError: " ++ k)
  | _ => .error "TypeError: value is not subscriptable by string"

/-- `v.get(k, default)` on a dict (only called on dicts in the source). -/
def jGetDefault (v : JValue) (k : String) (d : JValue) : JValue :=
  match v with
  | .obj fs => (fs.lookup k).getD d
  | _ => d

def charsBeginWith : List Char → List Char → Bool
  | [], _ => true
  | _ :: _, [] => false
  | a :: as, b :: bs => a == b && charsBeginWith as bs

def charsContain (needle : List Char) : List Char → Bool
  | [] => needle.isEmpty
  | c :: t => charsBeginWith needle (c :: t) || charsContain needle t

/-- Python `k in v`: key membership for dicts, element membership for lists,
substring test for strings, `TypeError` otherwise. -/
def pyContains (v : JValue) (k : String) : Except String Bool :=
  match v with
  | .obj fs => .ok (fs.lookup k).isSome
  | .arr l => .ok (jeqList' l)
  | .str s => .ok (charsContain k.data s.data)
  | _ => .error "TypeError: argument is not iterable"
where jeqList' : JList → Bool
  | .nil => false
  | .cons x r => jeq x (.str k) || jeqList' r

/-- Iterating `for x in v` where the source expects a YAML list. -/
def jIterList (v : JValue) : Except String (List JValue) :=
  match v with
  | .arr l => .ok l.toList
  | _ => .error "TypeError: value is not a list"

/-- Python dict assignment `v[k] = x`: replace in place when the key exists,
append otherwise. -/
def setField : JFields → String → JValue → JFields
  | .nil, k, v => .cons k v .nil
  | .cons k2 v2 rest, k, v =>
      if k2 = k then .cons k2 v rest else .cons k2 v2 (setField rest k v)

/-- `v[p1][p2]...[pn][key] = newv` with Python's `KeyError`/`TypeError`
behaviour along the path. -/
def jSetIn (v : JValue) (path : List String) (key : String) (newv : JValue) :
    Except String JValue :=
  match path with
  | [] =>
      match v with
      | .obj fs => .ok (.obj (setField fs key newv))
      | _ => .error "TypeError: value does not support item assignment"
  | p :: rest =>
      match v with
      | .obj fs =>
          match fs.lookup p with
          | none => .error ("KeyError: " ++ p)
          | some sub =>
              match jSetIn sub rest key newv with
              | .error m => .error m
              | .ok sub2 => .ok (.obj (setField fs p sub2))
      | _ => .error "TypeError: value is not subscriptable by string"

/-- Python truthiness of an optional document (`if self.disk:`). -/
def jTruthy : Option JValue → Bool
  | none => false
  | some .null => false
  | some (.bool b) => b
  | some (.num n) => n != 0
  | some (.str s) => !s.isEmpty
  | some (.arr .nil) => false
  | some (.arr (.cons _ _)) => true
  | some (.obj .nil) => false
  | some (.obj (.cons _ _ _)) => true

/-! ## `json.dumps(doc, sort_keys=True)` -/

def hexChar (n : Nat) : Char :=
  if n < 10 then Char.ofNat (48 + n) else Char.ofNat (87 + n)

def hex4 (n : Nat) : String :=
  String.mk [hexChar (n / 4096 % 16), hexChar (n / 256 % 16),
             hexChar (n / 16 % 16), hexChar (n % 16)]

/-- Escaping of one character as done by `json.dumps` with the default
`ensure_ascii=True` (non-printable and non-ASCII become `\uXXXX`). -/
def escChar (c : Char) : String :=
  if c = '"' then "\\\""
  else if c = '\\' then "\\\\"
  else if c = '\n' then "\\n"
  else if c = '\t' then "\\t"
  else if c = '\r' then "\\r"
  else if c.toNat = 8 then "\\b"
  else if c.toNat = 12 then "\\f"
  else if c.toNat < 32 || c.toNat > 126 then "\\u" ++ hex4 c.toNat
  else String.mk [c]

def escString (s : String) : String :=
  String.join (s.data.map escChar)

def strLtChars : List Char → List Char → Bool
  | [], [] => false
  | [], _ :: _ => true
  | _ :: _, [] => false
  | a :: as, b :: bs =>
      if a.toNat < b.toNat then true
      else if b.toNat < a.toNat then false
      else strLtChars as bs

/-- Python `<` on strings (code-point lexicographic). -/
def strLtB (a b : String) : Bool := strLtChars a.data b.data

def insertField (k : String) (v : JValue) : JFields → JFields
  | .nil => .cons k v .nil
  | .cons k2 v2 rest =>
      if strLtB k k2 then .cons k v (.cons k2 v2 rest)
      else .cons k2 v2 (insertField k v rest)

/-- Stable sort of object fields by key, as `sorted(dict.items())` does. -/
def sortFields : JFields → JFields
  | .nil => .nil
  | .cons k v rest => insertField k v (sortFields rest)

mutual

/-- Recursively sort all object keys; serialising the result equals
`json.dumps(doc, sort_keys=True)` on the original. -/
def sortJson : JValue → JValue
  | .obj fs => .obj (sortFields (sortJsonFields fs))
  | .arr l => .arr (sortJsonList l)
  | .null => .null
  | .bool b => .bool b
  | .num n => .num n
  | .str s => .str s

def sortJsonList : JList → JList
  | .nil => .nil
  | .cons v r => .cons (sortJson v) (sortJsonList r)

def sortJsonFields : JFields → JFields
  | .nil => .nil
  | .cons k v r => .cons k (sortJson v) (sortJsonFields r)

end

mutual

/-- `json.dumps` with the default separators `", "` and `": "`. -/
def dumpsV : JValue → String
  | .null => "null"
  | .bool true => "true"
  | .bool false => "false"
  | .num n => toString n
  | .str s => "\"" ++ escString s ++ "\""
  | .arr l => "[" ++ dumpsL l ++ "]"
  | .obj fs => "\x7b" ++ dumpsF fs ++ "\x7d"

def dumpsL : JList → String
  | .nil => ""
  | .cons v .nil => dumpsV v
  | .cons v (.cons w r) => dumpsV v ++ ", " ++ dumpsL (.cons w r)

def dumpsF : JFields → String
  | .nil => ""
  | .cons k v .nil => "\"" ++ escString k ++ "\": " ++ dumpsV v
  | .cons k v (.cons k2 v2 r) =>
      "\"" ++ escString k ++ "\": " ++ dumpsV v ++ ", " ++ dumpsF (.cons k2 v2 r)

end

/-- `json.dumps(doc, sort_keys=True)`. -/
def jsonDumpsSorted (v : JValue) : String := dumpsV (sortJson v)

/-! ## SHA-1 (`hashlib.sha1`), over byte lists -/

def w32 (n : Nat) : Nat := n % 4294967296

def rotl (s n : Nat) : Nat := (n * 2 ^ s) % 4294967296 + n / 2 ^ (32 - s)

def be64 (n : Nat) : List Nat :=
  [n / 2 ^ 56 % 256, n / 2 ^ 48 % 256, n / 2 ^ 40 % 256, n / 2 ^ 32 % 256,
   n / 2 ^ 24 % 256, n / 2 ^ 16 % 256, n / 2 ^ 8 % 256, n % 256]

/-- Merkle-Damgard padding: `0x80`, zeros to 56 mod 64, 64-bit bit length. -/
def sha1pad (msg : List Nat) : List Nat :=
  let L := msg.length
  let z := (119 - L % 64) % 64
  msg ++ [128] ++ List.replicate z 0 ++ be64 (8 * L)

def toWords : List Nat → List Nat
  | a :: b :: c :: d :: rest => (((a * 256 + b) * 256 + c) * 256 + d) :: toWords rest
  | _ => []

def toBlocks16 : List Nat → List (List Nat)
  | w0 :: w1 :: w2 :: w3 :: w4 :: w5 :: w6 :: w7 :: w8 :: w9 :: w10 :: w11 :: w12 :: w13 :: w14 :: w15 :: rest =>
      [w0, w1, w2, w3, w4, w5, w6, w7, w8, w9, w10, w11, w12, w13, w14, w15] :: toBlocks16 rest
  | _ => []

/-- Message-schedule extension, on the reversed word list. -/
def extendN : Nat → List Nat → List Nat
  | 0, rev => rev
  | k + 1, rev =>
      extendN k (rotl 1 (Nat.xor (Nat.xor (rev.getD 2 0) (rev.getD 7 0))
        (Nat.xor (rev.getD 13 0) (rev.getD 15 0))) :: rev)

def sha1f (t b c d : Nat) : Nat :=
  if t < 20 then Nat.lor (Nat.land b c) (Nat.land (Nat.xor b 4294967295) d)
  else if t < 40 then Nat.xor (Nat.xor b c) d
  else if t < 60 then Nat.lor (Nat.lor (Nat.land b c) (Nat.land b d)) (Nat.land c d)
  else Nat.xor (Nat.xor b c) d

def sha1k (t : Nat) : Nat :=
  if t < 20 then 1518500249
  else if t < 40 then 1859775393
  else if t < 60 then 2400959708
  else 3395469782

def sha1rounds : Nat → List Nat → Nat × Nat × Nat × Nat × Nat → Nat × Nat × Nat × Nat × Nat
  | _, [], st => st
  | t, w :: ws, (a, b, c, d, e) =>
      sha1rounds (t + 1) ws (w32 (rotl 5 a + sha1f t b c d + e + sha1k t + w), a, rotl 30 b, c, d)

def sha1blocks : List (List Nat) → Nat × Nat × Nat × Nat × Nat → Nat × Nat × Nat × Nat × Nat
  | [], st => st
  | blk :: rest, (h0, h1, h2, h3, h4) =>
      let ws := (extendN 64 blk.reverse).reverse
      match sha1rounds 0 ws (h0, h1, h2, h3, h4) with
      | (a, b, c, d, e) =>
          sha1blocks rest (w32 (h0 + a), w32 (h1 + b), w32 (h2 + c), w32 (h3 + d), w32 (h4 + e))

def toHex8 (w : Nat) : String :=
  String.mk [hexChar (w / 16 ^ 7 % 16), hexChar (w / 16 ^ 6 % 16), hexChar (w / 16 ^ 5 % 16),
             hexChar (w / 16 ^ 4 % 16), hexChar (w / 16 ^ 3 % 16), hexChar (w / 16 ^ 2 % 16),
             hexChar (w / 16 % 16), hexChar (w % 16)]

/-- `hashlib.sha1(bytes).hexdigest()`, lowercase hex. -/
def sha1Hex (msg : List Nat) : String :=
  match sha1blocks (toBlocks16 (toWords (sha1pad msg)))
      (1732584193, 4023233417, 2562383102, 271733878, 3285377520) with
  | (h0, h1, h2, h3, h4) => toHex8 h0 ++ toHex8 h1 ++ toHex8 h2 ++ toHex8 h3 ++ toHex8 h4

/-- `.encode("ascii")`: `json.dumps` output with `ensure_ascii=True` is pure
ASCII, so code points are the bytes. -/
def strBytes (s : String) : List Nat := s.data.map Char.toNat

/-! ## Resource handles and `get_api_objs` (Manifest Materializer)

The templating engine is an external collaborator: a component's rendered
and parsed manifest documents are taken as input (`Component.docs`).  The
cluster API client is abstracted by `remote`, mapping a document to the
live state of the object of the same identity when it exists (`exists()` /
`reload()`), and by `runningQuery`, the label-selector query used by
`running_rc`. -/

/-- A pykube-style resource handle: `obj` is the desired-state document;
`reloaded` records the live state fetched by the last `reload()`, if any. -/
structure Handle where
  obj : JValue
  reloaded : Option JValue

/-- `obj.name`, i.e. `self.obj["metadata"]["name"]`. -/
def handleName (h : Handle) : Except String JValue :=
  match jGet h.obj "metadata" with
  | .error m => .error m
  | .ok md => jGet md "name"

/-- Resource kinds exposed by `pykube.objects` (`getattr` target). -/
def knownKinds : List String :=
  ["ConfigMap", "DaemonSet", "Deployment", "Endpoints", "Namespace", "Node",
   "Pod", "ReplicationController", "ResourceQuota", "Secret", "Service",
   "ServiceAccount", "Ingress", "Job", "HorizontalPodAutoscaler"]

/-- One document of `get_api_objs`: construct the handle from the rendered
document; if the object exists remotely, `reload()` overwrites `obj` with
the live state, and then the source assigns `obj.obj = doc`, restoring the
freshly rendered document as the desired state. -/
def mkHandle (remote : JValue → Option JValue) (doc : JValue) : Handle :=
  let h : Handle := { obj := doc, reloaded := none }
  match remote doc with
  | some live =>
      let h2 : Handle := { obj := live, reloaded := some live }
      { h2 with obj := doc }
  | none => h

/-- The document loop of `get_api_objs`: build a `(kind, handle)` pair per
document in order; `doc["kind"]` may raise `KeyError`, and `getattr` on an
unknown kind raises `AttributeError`. -/
def buildHandles (remote : JValue → Option JValue) : List JValue → Except String (List (String × Handle))
  | [] => .ok []
  | doc :: rest =>
      match jGet doc "kind" with
      | .error m => .error m
      | .ok (.str ks) =>
          if knownKinds.contains ks then
            match buildHandles remote rest with
            | .error m => .error m
            | .ok more => .ok ((ks, mkHandle remote doc) :: more)
          else .error ("AttributeError: module pykube.objects has no attribute " ++ ks)
      | .ok _ => .error "TypeError: attribute name must be string"

/-- `objs[kind]` on the `defaultdict(list)` result: the handles of that
kind in document order ([] when absent). -/
def objsOfKind (objs : List (String × Handle)) (kind : String) : List Handle :=
  (objs.filter (fun p => p.1 = kind)).map (fun p => p.2)

/-! ## DeploymentKey Generator -/

/-- `"".join(parts)`: plain concatenation. -/
def joinStr : List String → String
  | [] => ""
  | s :: r => s ++ joinStr r

/-- `"".join([json.dumps(r.obj, sort_keys=True) for r in objs])`. -/
def serializedDocs (objs : List Handle) : String :=
  joinStr (objs.map (fun h => jsonDumpsSorted h.obj))

/-- `KubernetesResource.generate_deployment_key`: SHA-1 of the concatenated
canonical serializations, first 8 hex characters. -/
def KubernetesResource.generate_deployment_key (objs : List Handle) : String :=
  (sha1Hex (strBytes (serializedDocs objs))).take 8

/-- Spec-side definition (§4.3 of the specification, for refinement):
canonicalize the workload document and each referenced credential document
with sorted keys, concatenate workload first then credentials in order,
hash with SHA-1 and keep the first 8 hex characters. -/
def specGenerateKey (workload : JValue) (creds : List JValue) : String :=
  (sha1Hex (strBytes (jsonDumpsSorted workload ++ joinStr (creds.map jsonDumpsSorted)))).take 8

/-- `next((s for s in secrets if s.name == volume["secret"]["secretName"]), None)`:
first rendered Secret handle whose name equals the referenced name. -/
def findSecret (secrets : List Handle) (sn : JValue) : Except String (Option Handle) :=
  match secrets with
  | [] => .ok none
  | s :: rest =>
      match handleName s with
      | .error m => .error m
      | .ok n => if jeq n sn then .ok (some s) else findSecret rest sn

/-- The volume loop of `ComponentResource.generate_deployment_key`: for each
volume carrying a `secret` key, look up the referenced Secret by name and
keep it; a referenced-but-absent credential is skipped (`continue`). -/
def collectSecrets (secrets : List Handle) : List JValue → Except String (List Handle)
  | [] => .ok []
  | vol :: rest =>
      match pyContains vol "secret" with
      | .error m => .error m
      | .ok false => collectSecrets secrets rest
      | .ok true =>
          match jGet vol "secret" with
          | .error m => .error m
          | .ok sv =>
              match jGet sv "secretName" with
              | .error m => .error m
              | .ok sn =>
                  match findSecret secrets sn with
                  | .error m => .error m
                  | .ok found =>
                      match collectSecrets secrets rest with
                      | .error m => .error m
                      | .ok more =>
                          match found with
                          | none => .ok more
                          | some sh => .ok (sh :: more)

/-! ## Side-effect events and the lifecycle monad -/

/-- Externally visible calls made by lifecycle operations.  `apiRead` marks
one `get_api_objs` invocation (manifest render plus `exists()`/`reload()`
queries); `queryRunning` is the label-selector query of `running_rc`;
`destroyDisk` models `provider.destroy_disk`, which the source never calls
from `destroy()` (the call is commented out). -/
inductive Event where
  | apiRead : Event
  | queryRunning : JValue → Event
  | createDisk : String → JValue → JValue → Event
  | createObj : JValue → Event
  | deleteObj : JValue → Event
  | updateObj : JValue → Event
  | scaleObj : JValue → Nat → Event
  | rollingUpdate : Event
  | destroyDisk : String → Event
  | providerCreate : String → Event
  | providerDestroy : String → Event
  | deleteCall : Event
  | pollExists : Event
  | sleep : Nat → Event

/-- Per-object state of a `ComponentResource` instance: the `_running_rc`
attribute set by the memoizing `running_rc` property. -/
structure CompState where
  cachedRunning : Option Handle

/-- Lifecycle computations: state (the component object's attributes),
a trace of emitted side effects, and Python-exception failure. -/
def M (α : Type) : Type := CompState → CompState × List Event × Except String α

instance : Monad M where
  pure a := fun s => (s, [], .ok a)
  bind x f := fun s =>
    match x s with
    | (s1, evs, .error e) => (s1, evs, .error e)
    | (s1, evs, .ok a) =>
        match f a s1 with
        | (s2, evs2, r) => (s2, evs ++ evs2, r)

def emit (e : Event) : M Unit := fun s => (s, [e], .ok ())

def liftE (x : Except String α) : M α := fun s => (s, [], x)

/-- Python's `if cond: <call>` statement inside a method body. -/
def pyWhen (b : Bool) (x : M Unit) : M Unit := if b then x else pure ()

/-- A `ComponentResource` instance: static identity plus the abstracted
collaborators (rendered documents, cluster API, resource configuration). -/
structure Component where
  manifest : String
  requiresDisk : Bool
  clusterName : String
  resources : String → Option JValue
  docs : List JValue
  remote : JValue → Option JValue
  runningQuery : JValue → Except String JValue

/-- `self.get_api_objs(self.layer, self.manifest)`. -/
def api_objs (c : Component) : M (List (String × Handle)) := do
  emit .apiRead
  liftE (buildHandles c.remote c.docs)

/-- `[...][0]` indexing on a kind's handle list. -/
def firstOf (l : List Handle) : Except String Handle :=
  match l with
  | [] => .error "IndexError: list index out of range"
  | h :: _ => .ok h

/-- `ComponentResource.disk`: when the component requires a disk, fetch
`"<manifest>-disk"` from the resource configuration and raise when it is
missing (a YAML `null` entry also comes back as Python `None`). -/
def ComponentResource.disk (c : Component) : Except String (Option JValue) :=
  if c.requiresDisk then
    match c.resources (c.manifest ++ "-disk") with
    | none => .error ("\"" ++ c.manifest ++ "\" requires disk configuration")
    | some .null => .error ("\"" ++ c.manifest ++ "\" requires disk configuration")
    | some dc => .ok (some dc)
  else .ok none

/-- `str(v)` for the scalar values interpolated by `"...".format(...)` in
the source (names are strings in every rendered manifest; container values
are approximated by their JSON serialization). -/
def pyFormatArg : JValue → String
  | .str s => s
  | .num n => toString n
  | .bool true => "True"
  | .bool false => "False"
  | .null => "None"
  | v => dumpsV v

/-- `ComponentResource.generate_deployment_key`: fetch the first workload
document and the credential documents (two separate `get_api_objs` calls),
walk `spec.template.spec.volumes` in declaration order collecting referenced
credentials, and delegate to the base key generator. -/
def ComponentResource.generate_deployment_key (c : Component) : M String := do
  let objs1 ← api_objs c
  let rc ← liftE (firstOf (objsOfKind objs1 "ReplicationController"))
  let objs2 ← api_objs c
  let spec ← liftE (jGet rc.obj "spec")
  let tmpl ← liftE (jGet spec "template")
  let spec2 ← liftE (jGet tmpl "spec")
  let vols ← liftE (jIterList (jGetDefault spec2 "volumes" (jarr [])))
  let secs ← liftE (collectSecrets (objsOfKind objs2 "Secret") vols)
  pure (KubernetesResource.generate_deployment_key (rc :: secs))

/-- `ComponentResource.get_rc`: fetch the workload handle, compute the
deployment key, and stamp it into the name and the three label fields. -/
def ComponentResource.get_rc (c : Component) : M Handle := do
  let objs ← api_objs c
  let rc ← liftE (firstOf (objsOfKind objs "ReplicationController"))
  let key ← ComponentResource.generate_deployment_key c
  let nm ← liftE (handleName rc)
  let doc1 ← liftE (jSetIn rc.obj ["metadata"] "name" (.str (pyFormatArg nm ++ "-" ++ key)))
  let doc2 ← liftE (jSetIn doc1 ["metadata", "labels"] "deployment" (.str key))
  let doc3 ← liftE (jSetIn doc2 ["spec", "selector"] "deployment" (.str key))
  let doc4 ← liftE (jSetIn doc3 ["spec", "template", "metadata", "labels"] "deployment" (.str key))
  pure { rc with obj := doc4 }

/-- `for obj in objs: obj.create(); logger.info(... obj.name)`. -/
def createEach : List Handle → M Unit
  | [] => pure ()
  | h :: rest => do
      emit (.createObj h.obj)
      let _ ← liftE (handleName h)
      createEach rest

/-- `for obj in objs: obj.delete(); logger.info(... obj.name)`. -/
def deleteEach : List Handle → M Unit
  | [] => pure ()
  | h :: rest => do
      emit (.deleteObj h.obj)
      let _ ← liftE (handleName h)
      deleteEach rest

/-- `for secret in secrets: secret.update()` (no logging). -/
def updateEach : List Handle → M Unit
  | [] => pure ()
  | h :: rest => do
      emit (.updateObj h.obj)
      updateEach rest

def ComponentResource.create_service (c : Component) : M Unit := do
  let objs ← api_objs c
  createEach (objsOfKind objs "Service")

def ComponentResource.create_secrets (c : Component) : M Unit := do
  let objs ← api_objs c
  createEach (objsOfKind objs "Secret")

def ComponentResource.create_replication_controller (c : Component) : M Unit := do
  let rc ← ComponentResource.get_rc c
  emit (.createObj rc.obj)
  let _ ← liftE (handleName rc)
  pure ()

def ComponentResource.has_secrets (c : Component) : M Bool := do
  let objs ← api_objs c
  pure (!(objsOfKind objs "Secret").isEmpty)

def ComponentResource.has_service (c : Component) : M Bool := do
  let objs ← api_objs c
  pure (!(objsOfKind objs "Service").isEmpty)

/-- The label-selector query performed on a `running_rc` cache miss: fetch
the rendered workload, read its namespace and base label, and query the
cluster for the currently running workload. -/
def ComponentResource.query_running (c : Component) : M Handle := do
  let objs ← api_objs c
  let rc ← liftE (firstOf (objsOfKind objs "ReplicationController"))
  let md ← liftE (jGet rc.obj "metadata")
  let lbls ← liftE (jGet md "labels")
  let nameLbl ← liftE (jGet lbls "kelproject.com/name")
  emit (.queryRunning nameLbl)
  let doc ← liftE (c.runningQuery nameLbl)
  pure { obj := doc, reloaded := none }

/-- The `running_rc` property: `if not hasattr(self, "_running_rc")`, run
the query and store the handle in `_running_rc`; otherwise return the
stored handle without touching the cluster API. -/
def ComponentResource.running_rc (c : Component) : M Handle := fun st =>
  match st.cachedRunning with
  | some h => (st, [], .ok h)
  | none =>
      match ComponentResource.query_running c st with
      | (_, evs, .ok h) => ({ cachedRunning := some h }, evs, .ok h)
      | (st1, evs, .error e) => (st1, evs, .error e)

/-- `can_upgrade`: recompute the key and compare (`!=`) with the running
workload's `deployment` label. -/
def ComponentResource.can_upgrade (c : Component) : M Bool := do
  let key ← ComponentResource.generate_deployment_key c
  let rrc ← ComponentResource.running_rc c
  let md ← liftE (jGet rrc.obj "metadata")
  let lbls ← liftE (jGet md "labels")
  let dep ← liftE (jGet lbls "deployment")
  pure (!jeq (.str key) dep)

def ComponentResource.update_secrets (c : Component) : M Unit := do
  let hs ← ComponentResource.has_secrets c
  if hs then do
    let objs ← api_objs c
    updateEach (objsOfKind objs "Secret")
  else pure ()

/-- `upgrade`: return immediately when `can_upgrade()` is false; otherwise
update the credentials in place and hand (running workload, newly keyed
workload) to the rolling-update coordinator. -/
def ComponentResource.upgrade (c : Component) : M Unit := do
  let b ← ComponentResource.can_upgrade c
  if b then do
    ComponentResource.update_secrets c
    let _old ← ComponentResource.running_rc c
    let _new ← ComponentResource.get_rc c
    emit .rollingUpdate
  else pure ()

/-- `create`: provision the disk first when one is declared (the `disk`
property raising beforehand when configuration is missing), then the
credential documents, then the service documents, then the keyed workload. -/
def ComponentResource.create (c : Component) : M Unit := do
  let d ← liftE (ComponentResource.disk c)
  pyWhen (jTruthy d) (do
    let sz ← liftE (jGet (d.getD .null) "size")
    let ty ← liftE (jGet (d.getD .null) "type")
    emit (.createDisk (c.clusterName ++ "-" ++
      pyFormatArg (jGetDefault (d.getD .null) "name" (.str c.manifest))) sz ty))
  let hs ← ComponentResource.has_secrets c
  pyWhen hs (ComponentResource.create_secrets c)
  let hv ← ComponentResource.has_service c
  pyWhen hv (ComponentResource.create_service c)
  ComponentResource.create_replication_controller c

/-- `KubernetesResource.delete_rc`: scale the workload to zero replicas,
then delete it. -/
def KubernetesResource.delete_rc (h : Handle) : M Unit := do
  emit (.scaleObj h.obj 0)
  emit (.deleteObj h.obj)

def ComponentResource.destroy_replication_controller (c : Component) : M Unit := do
  let objs ← api_objs c
  let rc ← liftE (firstOf (objsOfKind objs "ReplicationController"))
  KubernetesResource.delete_rc rc
  let _ ← liftE (handleName rc)
  pure ()

def ComponentResource.destroy_service (c : Component) : M Unit := do
  let objs ← api_objs c
  deleteEach (objsOfKind objs "Service")

def ComponentResource.destroy_secrets (c : Component) : M Unit := do
  let objs ← api_objs c
  deleteEach (objsOfKind objs "Secret")

/-- `destroy`: workload first (scale to zero, then delete), then service
documents if any, then credential documents if any; the disk-destruction
call is commented out in the source and never performed. -/
def ComponentResource.destroy (c : Component) : M Unit := do
  ComponentResource.destroy_replication_controller c
  let hv ← ComponentResource.has_service c
  pyWhen hv (ComponentResource.destroy_service c)
  let hs ← ComponentResource.has_secrets c
  pyWhen hs (ComponentResource.destroy_secrets c)

/-! ## Namespace-scoped deletion (`delete_namespace`) -/

/-- The `while obj.exists(): time.sleep(1)` loop, with the sequence of
`exists()` poll results abstracted as `existsAt` (the i-th poll, 0-based)
and an explicit fuel bound standing in for elapsed iterations.  The result
is `some k` when the loop exits after exactly `k` polls, and `none` when
the loop is still running once the fuel is spent (the source loop has no
timeout and never returns in that case). -/
def pollLoop (existsAt : Nat → Bool) : Nat → Nat → List Event × Option Nat
  | 0, _ => ([], none)
  | fuel + 1, i =>
      if existsAt i then
        match pollLoop existsAt fuel (i + 1) with
        | (t, r) => (Event.pollExists :: Event.sleep 1 :: t, r)
      else ([Event.pollExists], some (i + 1))

/-- `KubernetesResource.delete_namespace`: one `delete()` call, then the
poll-until-absent loop. -/
def KubernetesResource.delete_namespace (existsAt : Nat → Bool) (fuel : Nat) :
    List Event × Option Nat :=
  match pollLoop existsAt fuel 0 with
  | (t, r) => (Event.deleteCall :: t, r)

/-! ## Cluster orchestrator (`cluster.py`) -/

/-- The fixed infrastructure component order (`Cluster.components`). -/
def Cluster.components : List String := ["network", "etcd", "master", "nodes"]

/-- `Cluster.create`: `for c in self.components: self.get_provider_resource(c).create()`. -/
def Cluster.create_events : List Event :=
  Cluster.components.map Event.providerCreate

/-- `Cluster.destroy`: `for c in reversed(self.components): self.get_provider_resource(c).destroy()`. -/
def Cluster.destroy_events : List Event :=
  Cluster.components.reverse.map Event.providerDestroy

/-- `list.append(...)` called with an arbitrary argument tuple: Python's
`append` accepts exactly one argument and raises `TypeError` otherwise. -/
def pyListAppend (l : List JValue) (args : List JValue) : Except String (List JValue) :=
  match args with
  | [a] => .ok (l ++ [a])
  | _ => .error ("TypeError: append() takes exactly one argument (" ++
      toString args.length ++ " given)")

/-- An `x509.DNSName` value. -/
def dnsName (s : String) : JValue := jobj [("DNSName", .str s)]

/-- `Cluster.get_default_cert_opts`, returning the `sans` list of the
options: starts from `\x7b"sans": []\x7d` and, for the `apiserver`
identity, calls `opts["sans"].append(...)` with two arguments — exactly as
the source does. -/
def Cluster.get_default_cert_opts (name : String) : Except String (List JValue) :=
  let sans : List JValue := []
  if name = "apiserver" then
    pyListAppend sans [dnsName "kubernetes", dnsName "kubernetes.default"]
  else .ok sans

/-! ## Generic lemmas about the lifecycle monad -/

theorem M.bind_def (x : M α) (f : α → M β) (st : CompState) :
    (x >>= f) st =
      match x st with
      | (s1, evs, .error e) => (s1, evs, .error e)
      | (s1, evs, .ok a) =>
          match f a s1 with
          | (s2, evs2, r) => (s2, evs ++ evs2, r) := rfl

theorem M.bind_ok {x : M α} {f : α → M β} {st s1 : CompState} {e1 : List Event}
    {a : α} (hx : x st = (s1, e1, .ok a)) {s2 : CompState} {e2 : List Event}
    {r : Except String β} (hf : f a s1 = (s2, e2, r)) :
    (x >>= f) st = (s2, e1 ++ e2, r) := by
  simp only [M.bind_def, hx, hf]

theorem M.bind_err {x : M α} {f : α → M β} {st s1 : CompState} {e1 : List Event}
    {m : String} (hx : x st = (s1, e1, .error m)) :
    (x >>= f) st = (s1, e1, .error m) := by
  simp only [M.bind_def, hx]

theorem M.pure_def (a : α) (st : CompState) :
    (pure a : M α) st = (st, [], .ok a) := rfl

theorem emit_def (e : Event) (st : CompState) : emit e st = (st, [e], .ok ()) := rfl

theorem liftE_ok (a : α) (st : CompState) :
    liftE (.ok a) st = (st, [], .ok a) := rfl

theorem liftE_err (m : String) (st : CompState) :
    liftE (α := α) (.error m) st = (st, [], .error m) := rfl

/-- Computations that never write the component object's attributes. -/
def preservesState (x : M α) : Prop := ∀ st, (x st).1 = st

/-- Computations that only read from the cluster API: every emitted event
is a read marker or the running-workload query. -/
def isReadEvent : Event → Bool
  | .apiRead => true
  | .queryRunning _ => true
  | _ => false

/-- All events emitted by `x`, from any starting state, satisfy `P`. -/
def eventsSatisfy (P : Event → Prop) (x : M α) : Prop :=
  ∀ st ev, ev ∈ (x st).2.1 → P ev

/-- Shorthand predicate: every emitted event is a cluster-API read. -/
def readOnlyEv (ev : Event) : Prop := isReadEvent ev = true

theorem preservesState_bind {x : M α} {f : α → M β} (hx : preservesState x)
    (hf : ∀ a, preservesState (f a)) : preservesState (x >>= f) := by
  intro st
  rcases h : x st with ⟨s1, e1, r⟩
  cases r with
  | error m =>
      rw [M.bind_err h]
      have h1 := hx st
      rw [h] at h1
      exact h1
  | ok a =>
      rcases h2 : f a s1 with ⟨s2, e2, r2⟩
      rw [M.bind_ok h h2]
      have h1 := hx st
      rw [h] at h1
      have h3 := hf a s1
      rw [h2] at h3
      exact h3.trans h1

theorem preservesState_pure (a : α) : preservesState (pure a : M α) := fun _ => rfl

theorem preservesState_liftE (x : Except String α) : preservesState (liftE x) := by
  intro st; cases x <;> rfl

theorem preservesState_emit (e : Event) : preservesState (emit e) := fun _ => rfl

theorem eventsSatisfy_bind {P : Event → Prop} {x : M α} {f : α → M β}
    (hx : eventsSatisfy P x) (hf : ∀ a, eventsSatisfy P (f a)) :
    eventsSatisfy P (x >>= f) := by
  intro st ev hev
  rcases h : x st with ⟨s1, e1, r⟩
  cases r with
  | error m =>
      rw [M.bind_err h] at hev
      exact hx st ev (by rw [h]; exact hev)
  | ok a =>
      rcases h2 : f a s1 with ⟨s2, e2, r2⟩
      rw [M.bind_ok h h2] at hev
      rcases List.mem_append.mp hev with h3 | h3
      · exact hx st ev (by rw [h]; exact h3)
      · exact hf a s1 ev (by rw [h2]; exact h3)

theorem eventsSatisfy_pure (P : Event → Prop) (a : α) :
    eventsSatisfy P (pure a : M α) := by
  intro st ev hev; cases hev

theorem eventsSatisfy_liftE (P : Event → Prop) (x : Except String α) :
    eventsSatisfy P (liftE x) := by
  intro st ev hev; cases x <;> cases hev

theorem eventsSatisfy_emit {P : Event → Prop} {e : Event} (he : P e) :
    eventsSatisfy P (emit e) := by
  intro st ev hev
  have h : ev = e := List.mem_singleton.mp hev
  rw [h]
  exact he

/-! ## Read-only character of the query paths -/

theorem api_objs_readsOnly (c : Component) :
    eventsSatisfy readOnlyEv (api_objs c) := by
  unfold api_objs
  exact eventsSatisfy_bind (eventsSatisfy_emit rfl) (fun _ => eventsSatisfy_liftE _ _)

theorem generate_deployment_key_readsOnly (c : Component) :
    eventsSatisfy readOnlyEv (ComponentResource.generate_deployment_key c) := by
  unfold ComponentResource.generate_deployment_key
  exact eventsSatisfy_bind (api_objs_readsOnly c) (fun objs1 =>
    eventsSatisfy_bind (eventsSatisfy_liftE _ _) (fun rc =>
      eventsSatisfy_bind (api_objs_readsOnly c) (fun objs2 =>
        eventsSatisfy_bind (eventsSatisfy_liftE _ _) (fun spec =>
          eventsSatisfy_bind (eventsSatisfy_liftE _ _) (fun tmpl =>
            eventsSatisfy_bind (eventsSatisfy_liftE _ _) (fun spec2 =>
              eventsSatisfy_bind (eventsSatisfy_liftE _ _) (fun vols =>
                eventsSatisfy_bind (eventsSatisfy_liftE _ _) (fun secs =>
                  eventsSatisfy_pure _ _))))))))

theorem query_running_readsOnly (c : Component) :
    eventsSatisfy readOnlyEv (ComponentResource.query_running c) := by
  unfold ComponentResource.query_running
  exact eventsSatisfy_bind (api_objs_readsOnly c) (fun objs =>
    eventsSatisfy_bind (eventsSatisfy_liftE _ _) (fun rc =>
      eventsSatisfy_bind (eventsSatisfy_liftE _ _) (fun md =>
        eventsSatisfy_bind (eventsSatisfy_liftE _ _) (fun lbls =>
          eventsSatisfy_bind (eventsSatisfy_liftE _ _) (fun nameLbl =>
            eventsSatisfy_bind (eventsSatisfy_emit rfl) (fun u =>
              eventsSatisfy_bind (eventsSatisfy_liftE _ _) (fun doc =>
                eventsSatisfy_pure _ _)))))))

theorem running_rc_readsOnly (c : Component) :
    eventsSatisfy readOnlyEv (ComponentResource.running_rc c) := by
  intro st ev hev
  unfold ComponentResource.running_rc at hev
  cases hcache : st.cachedRunning with
  | some h => rw [hcache] at hev; cases hev
  | none =>
      rw [hcache] at hev
      rcases hq : ComponentResource.query_running c st with ⟨s1, evs, r⟩
      rw [hq] at hev
      cases r with
      | ok h => exact query_running_readsOnly c st ev (by rw [hq]; exact hev)
      | error m => exact query_running_readsOnly c st ev (by rw [hq]; exact hev)

theorem can_upgrade_readsOnly (c : Component) :
    eventsSatisfy readOnlyEv (ComponentResource.can_upgrade c) := by
  unfold ComponentResource.can_upgrade
  exact eventsSatisfy_bind (generate_deployment_key_readsOnly c) (fun key =>
    eventsSatisfy_bind (running_rc_readsOnly c) (fun rrc =>
      eventsSatisfy_bind (eventsSatisfy_liftE _ _) (fun md =>
        eventsSatisfy_bind (eventsSatisfy_liftE _ _) (fun lbls =>
          eventsSatisfy_bind (eventsSatisfy_liftE _ _) (fun dep =>
            eventsSatisfy_pure _ _)))))

/-! ## Claim theorems -/

/-- Claim C2: `Cluster.create()` creates the infrastructure resources in
exactly the order network, etcd, master, nodes, and `Cluster.destroy()`
destroys them in exactly the reverse order nodes, master, etcd, network. -/
theorem claim_C2_orchestration_order :
    Cluster.create_events =
      [.providerCreate "network", .providerCreate "etcd",
       .providerCreate "master", .providerCreate "nodes"] ∧
    Cluster.destroy_events =
      [.providerDestroy "nodes", .providerDestroy "master",
       .providerDestroy "etcd", .providerDestroy "network"] ∧
    Cluster.destroy_events = (Cluster.components.map Event.providerDestroy).reverse :=
  ⟨rfl, rfl, rfl⟩

/-- Claim C7: the spec says `get_default_cert_opts("apiserver")` returns a
SAN list containing `kubernetes` and `kubernetes.default`; the code instead
calls `list.append` with two arguments, which raises `TypeError`, so the
apiserver branch can never produce the documented SANs.  Every other
identity name returns an empty SAN list as documented. -/
theorem claim_C7_cert_opts_append_bug :
    Cluster.get_default_cert_opts "apiserver" =
      .error "TypeError: append() takes exactly one argument (2 given)" ∧
    ∀ name, name ≠ "apiserver" → Cluster.get_default_cert_opts name = .ok [] := by
  constructor
  · rfl
  · intro name h
    unfold Cluster.get_default_cert_opts
    rw [if_neg h]

theorem claim_C7_cert_opts_append_bug_witness :
    ("etcd" : String) ≠ "apiserver" ∧ Cluster.get_default_cert_opts "etcd" = .ok [] :=
  ⟨by decide, claim_C7_cert_opts_append_bug.2 "etcd" (by decide)⟩

/-- The poll-loop trace of `delete_namespace` when the object is reported
present for `n` polls and absent at the next one. -/
def pollingTrace : Nat → List Event
  | 0 => [Event.pollExists]
  | n + 1 => Event.pollExists :: Event.sleep 1 :: pollingTrace n

def isPollEvent : Event → Bool
  | .pollExists => true
  | _ => false

def isDeleteEvent : Event → Bool
  | .deleteCall => true
  | _ => false

theorem pollingTrace_poll_count (n : Nat) :
    (pollingTrace n).countP isPollEvent = n + 1 := by
  induction n with
  | zero => rfl
  | succ m ih =>
      simp only [pollingTrace, List.countP_cons, ih]
      rfl

theorem pollingTrace_delete_count (n : Nat) :
    (pollingTrace n).countP isDeleteEvent = 0 := by
  induction n with
  | zero => rfl
  | succ m ih =>
      simp only [pollingTrace, List.countP_cons, ih]
      rfl

theorem pollLoop_exits (e : Nat → Bool) (m : Nat)
    (h1 : ∀ i, i < m → e i = true) (h2 : e m = false) :
    ∀ fuel j, j ≤ m → m - j < fuel →
      pollLoop e fuel j = (pollingTrace (m - j), some (m + 1)) := by
  intro fuel
  induction fuel with
  | zero => intro j hj hf; omega
  | succ f ih =>
      intro j hj hf
      rcases Nat.lt_or_ge j m with hlt | hge
      · have hej : e j = true := h1 j hlt
        have hrec := ih (j + 1) (by omega) (by omega)
        unfold pollLoop
        rw [hej]
        simp only [if_true, hrec]
        have hmj : m - j = (m - (j + 1)) + 1 := by omega
        rw [hmj]
        rfl
      · have hjm : j = m := by omega
        subst hjm
        unfold pollLoop
        rw [h2]
        simp only [Bool.false_eq_true, if_false, Nat.sub_self]
        rfl

theorem pollLoop_stays (e : Nat → Bool) :
    ∀ fuel j, (∀ i, i < j + fuel → e i = true) → (pollLoop e fuel j).2 = none := by
  intro fuel
  induction fuel with
  | zero => intro j h; rfl
  | succ f ih =>
      intro j h
      have hej : e j = true := h j (by omega)
      unfold pollLoop
      rw [hej]
      simp only [if_true]
      have := ih (j + 1) (fun i hi => h i (by omega))
      rcases hp : pollLoop e f (j + 1) with ⟨t, r⟩
      rw [hp] at this
      simpa using this

/-- Claim C9: `delete_namespace` deletes once, then polls `exists()` at a
one-second interval; with the object present for the first `m` polls and
absent at poll `m + 1`, the call returns after exactly `m + 1` polls (one
delete call, `m + 1` existence polls); with fewer than `m + 1` polls'
worth of fuel it has not returned, and if the object never becomes absent
it never returns. -/
theorem claim_C9_delete_namespace_poll (e : Nat → Bool) (m : Nat)
    (h1 : ∀ i, i < m → e i = true) (h2 : e m = false) :
    (∀ fuel, m < fuel →
      KubernetesResource.delete_namespace e fuel =
        (Event.deleteCall :: pollingTrace m, some (m + 1)) ∧
      (Event.deleteCall :: pollingTrace m).countP isDeleteEvent = 1 ∧
      (Event.deleteCall :: pollingTrace m).countP isPollEvent = m + 1) ∧
    (∀ fuel, fuel ≤ m → (KubernetesResource.delete_namespace e fuel).2 = none) ∧
    (∀ e2 : Nat → Bool, (∀ i, e2 i = true) →
      ∀ fuel, (KubernetesResource.delete_namespace e2 fuel).2 = none) := by
  refine ⟨?_, ?_, ?_⟩
  · intro fuel hf
    have hp := pollLoop_exits e m h1 h2 fuel 0 (by omega) (by omega)
    have hm0 : m - 0 = m := by omega
    rw [hm0] at hp
    refine ⟨?_, ?_, ?_⟩
    · unfold KubernetesResource.delete_namespace
      rw [hp]
    · simp only [List.countP_cons, pollingTrace_delete_count]
      rfl
    · simp only [List.countP_cons, pollingTrace_poll_count]
      rfl
  · intro fuel hf
    unfold KubernetesResource.delete_namespace
    have hs := pollLoop_stays e fuel 0 (fun i hi => h1 i (by omega))
    rcases hp : pollLoop e fuel 0 with ⟨t, r⟩
    rw [hp] at hs
    simpa using hs
  · intro e2 he2 fuel
    unfold KubernetesResource.delete_namespace
    have hs := pollLoop_stays e2 fuel 0 (fun i _ => he2 i)
    rcases hp : pollLoop e2 fuel 0 with ⟨t, r⟩
    rw [hp] at hs
    simpa using hs

theorem claim_C9_delete_namespace_poll_witness :
    KubernetesResource.delete_namespace (fun i => i == 0) 5 =
      (Event.deleteCall :: pollingTrace 1, some 2) ∧
    (KubernetesResource.delete_namespace (fun i => i == 0) 1).2 = none :=
  ⟨((claim_C9_delete_namespace_poll (fun i => i == 0) 1 (by decide) (by decide)).1
      5 (by decide)).1,
   (claim_C9_delete_namespace_poll (fun i => i == 0) 1 (by decide) (by decide)).2.1
      1 (by decide)⟩

theorem mkHandle_obj (remote : JValue → Option JValue) (doc : JValue) :
    (mkHandle remote doc).obj = doc := by
  unfold mkHandle
  cases remote doc <;> rfl

/-- Claim C5: every handle built by `get_api_objs` carries the freshly
rendered document as its desired state — for a document whose object
already exists remotely, `reload()` first overwrites the handle with the
live state and the document is then written back, so the returned handle
equals `mkHandle` of its own document (live state recorded, desired state
the new definition). -/
theorem claim_C5_desired_state_is_rendered_doc (remote : JValue → Option JValue) :
    ∀ (docs : List JValue) (pairs : List (String × Handle)),
      buildHandles remote docs = .ok pairs →
      pairs.map (fun p => p.2.obj) = docs ∧
      ∀ p ∈ pairs, p.2 = mkHandle remote p.2.obj := by
  intro docs
  induction docs with
  | nil =>
      intro pairs h
      simp only [buildHandles] at h
      injection h with h2
      subst h2
      exact ⟨rfl, by intro p hp; cases hp⟩
  | cons doc rest ih =>
      intro pairs h
      simp only [buildHandles] at h
      split at h
      · exact Except.noConfusion h
      · split at h
        · split at h
          · exact Except.noConfusion h
          · next more hrest =>
              injection h with h2
              subst h2
              obtain ⟨ihmap, ihmem⟩ := ih more hrest
              constructor
              · simp only [List.map_cons, mkHandle_obj, ihmap]
              · intro p hp
                rcases List.mem_cons.mp hp with hph | hpt
                · subst hph
                  simp only [mkHandle_obj]
                · exact ihmem p hpt
        · exact Except.noConfusion h
      · exact Except.noConfusion h

theorem claim_C5_desired_state_is_rendered_doc_witness :
    buildHandles (fun _ => some (jobj [("kind", .str "Secret"), ("stale", .bool true)]))
        [jobj [("kind", .str "Secret"), ("metadata", jobj [("name", .str "router")])]] =
      .ok [("Secret",
        { obj := jobj [("kind", .str "Secret"), ("metadata", jobj [("name", .str "router")])],
          reloaded := some (jobj [("kind", .str "Secret"), ("stale", .bool true)]) })] ∧
    ([("Secret",
        { obj := jobj [("kind", .str "Secret"), ("metadata", jobj [("name", .str "router")])],
          reloaded := some (jobj [("kind", .str "Secret"), ("stale", .bool true)]) })]
      : List (String × Handle)).map (fun p => p.2.obj) =
      [jobj [("kind", .str "Secret"), ("metadata", jobj [("name", .str "router")])]] :=
  ⟨rfl,
   (claim_C5_desired_state_is_rendered_doc
      (fun _ => some (jobj [("kind", .str "Secret"), ("stale", .bool true)]))
      [jobj [("kind", .str "Secret"), ("metadata", jobj [("name", .str "router")])]]
      [("Secret",
        { obj := jobj [("kind", .str "Secret"), ("metadata", jobj [("name", .str "router")])],
          reloaded := some (jobj [("kind", .str "Secret"), ("stale", .bool true)]) })]
      rfl).1⟩

/-- Claim C4: a component requiring a disk whose resource configuration has
no `<manifest>-disk` entry fails `create()` with the configuration error,
with an empty event trace — before any provider disk-creation call and
before any cluster-API call. -/
theorem claim_C4_disk_precondition (c : Component) (st : CompState)
    (h1 : c.requiresDisk = true)
    (h2 : c.resources (c.manifest ++ "-disk") = none) :
    ComponentResource.create c st =
      (st, [], .error ("\"" ++ c.manifest ++ "\" requires disk configuration")) := by
  have hd : ComponentResource.disk c =
      .error ("\"" ++ c.manifest ++ "\" requires disk configuration") := by
    simp [ComponentResource.disk, h1, h2]
  unfold ComponentResource.create
  exact M.bind_err (by rw [hd]; rfl)

def c4comp : Component :=
  { manifest := "api-cache", requiresDisk := true, clusterName := "kel",
    resources := fun _ => none, docs := [], remote := fun _ => none,
    runningQuery := fun _ => .error "ObjectDoesNotExist" }

theorem claim_C4_disk_precondition_witness :
    c4comp.requiresDisk = true ∧
    c4comp.resources (c4comp.manifest ++ "-disk") = none ∧
    ComponentResource.create c4comp { cachedRunning := none } =
      ({ cachedRunning := none }, [], .error "\"api-cache\" requires disk configuration") :=
  ⟨rfl, rfl, claim_C4_disk_precondition c4comp { cachedRunning := none } rfl rfl⟩

theorem api_objs_eval (c : Component) (st : CompState) :
    api_objs c st = (st, [Event.apiRead], buildHandles c.remote c.docs) := by
  unfold api_objs
  rcases hb : buildHandles c.remote c.docs with m | pairs
  · exact M.bind_ok (emit_def Event.apiRead st) (liftE_err m st)
  · exact M.bind_ok (emit_def Event.apiRead st) (liftE_ok pairs st)

/-! ## Claim C8: `running_rc` memoization -/

def c8doc : JValue :=
  jobj [("kind", .str "ReplicationController"),
        ("metadata", jobj [("name", .str "api-web"),
                           ("labels", jobj [("kelproject.com/name", .str "api-web")])])]

def c8cached : Handle :=
  { obj := jobj [("metadata", jobj [("labels", jobj [("deployment", .str "11111111")])])],
    reloaded := none }

def c8fresh : JValue :=
  jobj [("metadata", jobj [("labels", jobj [("deployment", .str "22222222")])])]

def c8comp : Component :=
  { manifest := "api-web", requiresDisk := false, clusterName := "kel",
    resources := fun _ => none, docs := [c8doc], remote := fun _ => none,
    runningQuery := fun _ => .ok c8fresh }

/-- Claim C8 counterexample: the claim says every query for the currently
running workload re-queries the cluster API by label selector rather than
returning a memoized handle.  On a component object whose `_running_rc`
attribute is already set, `running_rc` emits no event at all (no
label-selector query) and returns the stored handle, even though the query
would return a different document. -/
theorem claim_C8_counterexample :
    ComponentResource.running_rc c8comp { cachedRunning := some c8cached } =
      ({ cachedRunning := some c8cached }, [], .ok c8cached) ∧
    (ComponentResource.query_running c8comp { cachedRunning := some c8cached }).2.2 =
      .ok { obj := c8fresh, reloaded := none } ∧
    jeq c8cached.obj c8fresh = false :=
  ⟨rfl, rfl, rfl⟩

/-- Claim C8 amended: `get_api_objs` handles are built fresh on every call
(each call re-renders and re-queries, consulting no per-object state), but
the running-workload handle is memoized per component object: a cache miss
performs the label-selector query and stores the handle in `_running_rc`;
a cache hit returns the stored handle with no cluster-API interaction. -/
theorem claim_C8_running_rc_memoized (c : Component) :
    (∀ st h, st.cachedRunning = some h →
      ComponentResource.running_rc c st = (st, [], .ok h)) ∧
    (∀ st st2 evs h, st.cachedRunning = none →
      ComponentResource.running_rc c st = (st2, evs, .ok h) →
      st2 = { cachedRunning := some h } ∧
      (ComponentResource.query_running c st).2.2 = .ok h) ∧
    (∀ st, api_objs c st = (st, [Event.apiRead], buildHandles c.remote c.docs)) := by
  refine ⟨?_, ?_, api_objs_eval c⟩
  · intro st h hc
    unfold ComponentResource.running_rc
    rw [hc]
  · intro st st2 evs h hc hrun
    unfold ComponentResource.running_rc at hrun
    rw [hc] at hrun
    rcases hq : ComponentResource.query_running c st with ⟨s1, e1, r⟩
    rw [hq] at hrun
    cases r with
    | ok h2 =>
        simp only [Prod.mk.injEq] at hrun
        obtain ⟨hst2, _, hres⟩ := hrun
        injection hres with hres2
        subst hres2
        exact ⟨hst2.symm, rfl⟩
    | error m =>
        simp only [Prod.mk.injEq] at hrun
        exact absurd hrun.2.2 (by intro hx; cases hx)

theorem claim_C8_running_rc_memoized_witness :
    ({ cachedRunning := some c8cached } : CompState).cachedRunning = some c8cached ∧
    ComponentResource.running_rc c8comp { cachedRunning := some c8cached } =
      ({ cachedRunning := some c8cached }, [], .ok c8cached) ∧
    ({ cachedRunning := none } : CompState).cachedRunning = none ∧
    ComponentResource.running_rc c8comp { cachedRunning := none } =
      ({ cachedRunning := some { obj := c8fresh, reloaded := none } },
       [Event.apiRead, Event.queryRunning (.str "api-web")],
       .ok { obj := c8fresh, reloaded := none }) ∧
    ({ cachedRunning := some { obj := c8fresh, reloaded := none } } : CompState) =
      { cachedRunning := some { obj := c8fresh, reloaded := none } } ∧
    (ComponentResource.query_running c8comp { cachedRunning := none }).2.2 =
      .ok { obj := c8fresh, reloaded := none } :=
  ⟨rfl,
   (claim_C8_running_rc_memoized c8comp).1 { cachedRunning := some c8cached } c8cached rfl,
   rfl,
   rfl,
   ((claim_C8_running_rc_memoized c8comp).2.1 { cachedRunning := none }
      { cachedRunning := some { obj := c8fresh, reloaded := none } }
      [Event.apiRead, Event.queryRunning (.str "api-web")]
      { obj := c8fresh, reloaded := none } rfl rfl).1,
   ((claim_C8_running_rc_memoized c8comp).2.1 { cachedRunning := none }
      { cachedRunning := some { obj := c8fresh, reloaded := none } }
      [Event.apiRead, Event.queryRunning (.str "api-web")]
      { obj := c8fresh, reloaded := none } rfl rfl).2⟩

/-! ## Claims C1 and C10: the deployment key -/

theorem generate_deployment_key_eval (c : Component) (st : CompState)
    {pairs : List (String × Handle)} {rc : Handle} {rcrest : List Handle}
    {spec tmpl spec2 : JValue} {vols : List JValue} {secs : List Handle}
    (hb : buildHandles c.remote c.docs = .ok pairs)
    (hrc : objsOfKind pairs "ReplicationController" = rc :: rcrest)
    (hs : jGet rc.obj "spec" = .ok spec)
    (ht : jGet spec "template" = .ok tmpl)
    (hs2 : jGet tmpl "spec" = .ok spec2)
    (hv : jIterList (jGetDefault spec2 "volumes" (jarr [])) = .ok vols)
    (hc : collectSecrets (objsOfKind pairs "Secret") vols = .ok secs) :
    ComponentResource.generate_deployment_key c st =
      (st, [Event.apiRead, Event.apiRead],
       .ok (KubernetesResource.generate_deployment_key (rc :: secs))) := by
  unfold ComponentResource.generate_deployment_key
  simp only [M.bind_def, api_objs_eval, hb, hrc, firstOf, liftE_ok, hs, ht, hs2, hv, hc,
    M.pure_def, List.cons_append, List.nil_append, List.append_nil]

/-- The code's key of `workload :: credentials` is the spec's formula:
canonical workload serialization, then each credential's, concatenated in
order, hashed, first 8 hex characters. -/
theorem base_key_refines_spec (rc : Handle) (secs : List Handle) :
    KubernetesResource.generate_deployment_key (rc :: secs) =
      specGenerateKey rc.obj (secs.map Handle.obj) := by
  unfold KubernetesResource.generate_deployment_key specGenerateKey serializedDocs
  simp only [List.map_cons, List.map_map, joinStr, Function.comp]
  rfl

/-- Claim C1: the deployment key is the first 8 hex characters of the SHA-1
digest of the workload's sorted-key JSON serialization followed by each
referenced credential's sorted-key serialization in volume-declaration
order (the code path refines the spec formula `specGenerateKey`), and the
key depends only on that canonical concatenation: byte-identical canonical
serializations give equal keys. -/
theorem claim_C1_deployment_key (c : Component) (st : CompState)
    {pairs : List (String × Handle)} {rc : Handle} {rcrest : List Handle}
    {spec tmpl spec2 : JValue} {vols : List JValue} {secs : List Handle}
    (hb : buildHandles c.remote c.docs = .ok pairs)
    (hrc : objsOfKind pairs "ReplicationController" = rc :: rcrest)
    (hs : jGet rc.obj "spec" = .ok spec)
    (ht : jGet spec "template" = .ok tmpl)
    (hs2 : jGet tmpl "spec" = .ok spec2)
    (hv : jIterList (jGetDefault spec2 "volumes" (jarr [])) = .ok vols)
    (hc : collectSecrets (objsOfKind pairs "Secret") vols = .ok secs) :
    ComponentResource.generate_deployment_key c st =
      (st, [Event.apiRead, Event.apiRead],
       .ok (specGenerateKey rc.obj (secs.map Handle.obj))) ∧
    (∀ objs objs2 : List Handle,
      serializedDocs objs = serializedDocs objs2 →
      KubernetesResource.generate_deployment_key objs =
        KubernetesResource.generate_deployment_key objs2) := by
  constructor
  · rw [generate_deployment_key_eval c st hb hrc hs ht hs2 hv hc, base_key_refines_spec]
  · intro objs objs2 h
    unfold KubernetesResource.generate_deployment_key
    rw [h]

def c1vol : JValue :=
  jobj [("name", .str "config"), ("secret", jobj [("secretName", .str "api-secrets")])]

def c1rcDoc : JValue :=
  jobj [("kind", .str "ReplicationController"),
        ("metadata", jobj [("name", .str "api-web"),
                           ("labels", jobj [("kelproject.com/name", .str "api-web")])]),
        ("spec", jobj [("template", jobj [("spec", jobj [("volumes", jarr [c1vol])])])])]

def c1secDoc : JValue :=
  jobj [("kind", .str "Secret"),
        ("metadata", jobj [("name", .str "api-secrets")]),
        ("data", jobj [("password", .str "aHVudGVyMg==")])]

def c1comp : Component :=
  { manifest := "api-web", requiresDisk := false, clusterName := "kel",
    resources := fun _ => none, docs := [c1rcDoc, c1secDoc], remote := fun _ => none,
    runningQuery := fun _ => .error "ObjectDoesNotExist" }

theorem claim_C1_deployment_key_witness :
    ComponentResource.generate_deployment_key c1comp { cachedRunning := none } =
      ({ cachedRunning := none }, [Event.apiRead, Event.apiRead],
       .ok (specGenerateKey c1rcDoc [c1secDoc])) ∧
    KubernetesResource.generate_deployment_key [{ obj := c1rcDoc, reloaded := none }] =
      KubernetesResource.generate_deployment_key
        [{ obj := c1rcDoc, reloaded := some c1secDoc }] :=
  ⟨(claim_C1_deployment_key c1comp { cachedRunning := none }
      rfl rfl rfl rfl rfl rfl rfl).1,
   (claim_C1_deployment_key c1comp { cachedRunning := none }
      rfl rfl rfl rfl rfl rfl rfl).2
     [{ obj := c1rcDoc, reloaded := none }]
     [{ obj := c1rcDoc, reloaded := some c1secDoc }] rfl⟩

theorem collectSecrets_skip (secrets : List Handle) (v : JValue) (vrest : List JValue)
    {sv sn : JValue} {secs : List Handle}
    (hcv : pyContains v "secret" = .ok true)
    (hsv : jGet v "secret" = .ok sv)
    (hsn : jGet sv "secretName" = .ok sn)
    (hf : findSecret secrets sn = .ok none)
    (hrest : collectSecrets secrets vrest = .ok secs) :
    collectSecrets secrets (v :: vrest) = .ok secs := by
  simp only [collectSecrets, hcv, hsv, hsn, hf, hrest]

/-- Claim C10: a workload volume referencing a credential name for which no
rendered Secret document exists is silently skipped — key generation
succeeds, the volume contributes nothing to the hashed object list, and the
key equals the one computed from the remaining volumes' credentials only. -/
theorem claim_C10_absent_credential_skipped (c : Component) (st : CompState)
    {pairs : List (String × Handle)} {rc : Handle} {rcrest : List Handle}
    {spec tmpl spec2 : JValue} {v : JValue} {vrest : List JValue}
    {sv sn : JValue} {secs : List Handle}
    (hb : buildHandles c.remote c.docs = .ok pairs)
    (hrc : objsOfKind pairs "ReplicationController" = rc :: rcrest)
    (hs : jGet rc.obj "spec" = .ok spec)
    (ht : jGet spec "template" = .ok tmpl)
    (hs2 : jGet tmpl "spec" = .ok spec2)
    (hv : jIterList (jGetDefault spec2 "volumes" (jarr [])) = .ok (v :: vrest))
    (hcv : pyContains v "secret" = .ok true)
    (hsv : jGet v "secret" = .ok sv)
    (hsn : jGet sv "secretName" = .ok sn)
    (hf : findSecret (objsOfKind pairs "Secret") sn = .ok none)
    (hrest : collectSecrets (objsOfKind pairs "Secret") vrest = .ok secs) :
    ComponentResource.generate_deployment_key c st =
      (st, [Event.apiRead, Event.apiRead],
       .ok (KubernetesResource.generate_deployment_key (rc :: secs))) ∧
    collectSecrets (objsOfKind pairs "Secret") (v :: vrest) =
      collectSecrets (objsOfKind pairs "Secret") vrest := by
  have hskip : collectSecrets (objsOfKind pairs "Secret") (v :: vrest) = .ok secs :=
    collectSecrets_skip (objsOfKind pairs "Secret") v vrest hcv hsv hsn hf hrest
  exact ⟨generate_deployment_key_eval c st hb hrc hs ht hs2 hv hskip,
         hskip.trans hrest.symm⟩

def c10vol : JValue :=
  jobj [("name", .str "certs"), ("secret", jobj [("secretName", .str "missing-secret")])]

def c10rcDoc : JValue :=
  jobj [("kind", .str "ReplicationController"),
        ("metadata", jobj [("name", .str "router"),
                           ("labels", jobj [("kelproject.com/name", .str "router")])]),
        ("spec", jobj [("template", jobj [("spec", jobj [("volumes", jarr [c10vol])])])])]

def c10comp : Component :=
  { manifest := "router", requiresDisk := false, clusterName := "kel",
    resources := fun _ => none, docs := [c10rcDoc], remote := fun _ => none,
    runningQuery := fun _ => .error "ObjectDoesNotExist" }

theorem claim_C10_absent_credential_skipped_witness :
    ComponentResource.generate_deployment_key c10comp { cachedRunning := none } =
      ({ cachedRunning := none }, [Event.apiRead, Event.apiRead],
       .ok (KubernetesResource.generate_deployment_key
         [{ obj := c10rcDoc, reloaded := none }])) ∧
    collectSecrets [] [c10vol] = collectSecrets [] [] :=
  ⟨(claim_C10_absent_credential_skipped c10comp { cachedRunning := none }
      rfl rfl rfl rfl rfl rfl rfl rfl rfl rfl rfl).1,
   (claim_C10_absent_credential_skipped c10comp { cachedRunning := none }
      rfl rfl rfl rfl rfl rfl rfl rfl rfl rfl rfl).2⟩

/-! ## Claim C6: destroy order and the left-behind disk -/

/-- `[obj.name for obj in hs]`: all names resolvable (used to express that
the logging calls interleaved with the delete loop do not raise). -/
def namesOf : List Handle → Except String (List JValue)
  | [] => .ok []
  | h :: r =>
      match handleName h with
      | .error m => .error m
      | .ok n =>
          match namesOf r with
          | .error m => .error m
          | .ok ns => .ok (n :: ns)

theorem namesOf_ok {hs : List Handle} {ns : List JValue} (h : namesOf hs = .ok ns) :
    ∀ x ∈ hs, ∃ n, handleName x = .ok n := by
  induction hs generalizing ns with
  | nil => intro x hx; cases hx
  | cons h2 rest ih =>
      intro x hx
      simp only [namesOf] at h
      split at h
      · exact Except.noConfusion h
      · next n hn =>
          split at h
          · exact Except.noConfusion h
          · next ns2 hns =>
              rcases List.mem_cons.mp hx with hx1 | hxr
              · subst hx1
                exact ⟨n, hn⟩
              · exact ih hns x hxr

theorem deleteEach_trace : ∀ (hs : List Handle) (st : CompState),
    (∀ x ∈ hs, ∃ n, handleName x = .ok n) →
    deleteEach hs st = (st, hs.map (fun h => Event.deleteObj h.obj), .ok ()) := by
  intro hs
  induction hs with
  | nil => intro st _; rfl
  | cons h rest ih =>
      intro st hok
      obtain ⟨n, hn⟩ := hok h (List.mem_cons_self h rest)
      have e2 : liftE (handleName h) st = (st, [], .ok n) := by rw [hn]; rfl
      have e3 := ih st (fun x hx => hok x (List.mem_cons_of_mem h hx))
      exact M.bind_ok (emit_def (Event.deleteObj h.obj) st) (M.bind_ok e2 e3)

theorem has_service_eval (c : Component) (st : CompState)
    {pairs : List (String × Handle)} (hb : buildHandles c.remote c.docs = .ok pairs) :
    ComponentResource.has_service c st =
      (st, [Event.apiRead], .ok (!(objsOfKind pairs "Service").isEmpty)) := by
  have ha : api_objs c st = (st, [Event.apiRead], .ok pairs) := by
    rw [api_objs_eval, hb]
  exact M.bind_ok ha (M.pure_def _ st)

theorem has_secrets_eval (c : Component) (st : CompState)
    {pairs : List (String × Handle)} (hb : buildHandles c.remote c.docs = .ok pairs) :
    ComponentResource.has_secrets c st =
      (st, [Event.apiRead], .ok (!(objsOfKind pairs "Secret").isEmpty)) := by
  have ha : api_objs c st = (st, [Event.apiRead], .ok pairs) := by
    rw [api_objs_eval, hb]
  exact M.bind_ok ha (M.pure_def _ st)

theorem destroy_service_trace (c : Component) (st : CompState)
    {pairs : List (String × Handle)} (hb : buildHandles c.remote c.docs = .ok pairs)
    (hok : ∀ x ∈ objsOfKind pairs "Service", ∃ n, handleName x = .ok n) :
    ComponentResource.destroy_service c st =
      (st, Event.apiRead ::
        (objsOfKind pairs "Service").map (fun h => Event.deleteObj h.obj), .ok ()) := by
  have ha : api_objs c st = (st, [Event.apiRead], .ok pairs) := by
    rw [api_objs_eval, hb]
  exact M.bind_ok ha (deleteEach_trace _ st hok)

theorem destroy_secrets_trace (c : Component) (st : CompState)
    {pairs : List (String × Handle)} (hb : buildHandles c.remote c.docs = .ok pairs)
    (hok : ∀ x ∈ objsOfKind pairs "Secret", ∃ n, handleName x = .ok n) :
    ComponentResource.destroy_secrets c st =
      (st, Event.apiRead ::
        (objsOfKind pairs "Secret").map (fun h => Event.deleteObj h.obj), .ok ()) := by
  have ha : api_objs c st = (st, [Event.apiRead], .ok pairs) := by
    rw [api_objs_eval, hb]
  exact M.bind_ok ha (deleteEach_trace _ st hok)

theorem destroy_rc_trace (c : Component) (st : CompState)
    {pairs : List (String × Handle)} {rc : Handle} {rcrest : List Handle} {rcName : JValue}
    (hb : buildHandles c.remote c.docs = .ok pairs)
    (hrc : objsOfKind pairs "ReplicationController" = rc :: rcrest)
    (hname : handleName rc = .ok rcName) :
    ComponentResource.destroy_replication_controller c st =
      (st, [Event.apiRead, Event.scaleObj rc.obj 0, Event.deleteObj rc.obj], .ok ()) := by
  have ha : api_objs c st = (st, [Event.apiRead], .ok pairs) := by
    rw [api_objs_eval, hb]
  have hfirst : liftE (firstOf (objsOfKind pairs "ReplicationController")) st
      = (st, [], .ok rc) := by rw [hrc]; rfl
  have hdel : KubernetesResource.delete_rc rc st =
      (st, [Event.scaleObj rc.obj 0, Event.deleteObj rc.obj], .ok ()) := rfl
  have hnm : liftE (handleName rc) st = (st, [], .ok rcName) := by rw [hname]; rfl
  exact M.bind_ok ha (M.bind_ok hfirst (M.bind_ok hdel (M.bind_ok hnm (M.pure_def _ st))))

/-- No event is the provider's disk destruction. -/
def notDiskEv (ev : Event) : Prop := ∀ n, ev ≠ Event.destroyDisk n

theorem api_objs_notDisk (c : Component) : eventsSatisfy notDiskEv (api_objs c) := by
  unfold api_objs
  exact eventsSatisfy_bind (eventsSatisfy_emit (fun n h => Event.noConfusion h))
    (fun _ => eventsSatisfy_liftE _ _)

theorem deleteEach_notDisk : ∀ hs : List Handle, eventsSatisfy notDiskEv (deleteEach hs) := by
  intro hs
  induction hs with
  | nil => exact eventsSatisfy_pure _ _
  | cons h rest ih =>
      unfold deleteEach
      exact eventsSatisfy_bind (eventsSatisfy_emit (fun n hx => Event.noConfusion hx))
        (fun _ => eventsSatisfy_bind (eventsSatisfy_liftE _ _) (fun _ => ih))

theorem destroy_rc_notDisk (c : Component) :
    eventsSatisfy notDiskEv (ComponentResource.destroy_replication_controller c) := by
  unfold ComponentResource.destroy_replication_controller KubernetesResource.delete_rc
  exact eventsSatisfy_bind (api_objs_notDisk c) (fun objs =>
    eventsSatisfy_bind (eventsSatisfy_liftE _ _) (fun rc =>
      eventsSatisfy_bind
        (eventsSatisfy_bind (eventsSatisfy_emit (fun n hx => Event.noConfusion hx))
          (fun _ => eventsSatisfy_emit (fun n hx => Event.noConfusion hx)))
        (fun _ =>
          eventsSatisfy_bind (eventsSatisfy_liftE _ _) (fun _ =>
            eventsSatisfy_pure _ _))))

theorem destroy_service_notDisk (c : Component) :
    eventsSatisfy notDiskEv (ComponentResource.destroy_service c) := by
  unfold ComponentResource.destroy_service
  exact eventsSatisfy_bind (api_objs_notDisk c) (fun objs => deleteEach_notDisk _)

theorem destroy_secrets_notDisk (c : Component) :
    eventsSatisfy notDiskEv (ComponentResource.destroy_secrets c) := by
  unfold ComponentResource.destroy_secrets
  exact eventsSatisfy_bind (api_objs_notDisk c) (fun objs => deleteEach_notDisk _)

theorem has_service_notDisk (c : Component) :
    eventsSatisfy notDiskEv (ComponentResource.has_service c) := by
  unfold ComponentResource.has_service
  exact eventsSatisfy_bind (api_objs_notDisk c) (fun _ => eventsSatisfy_pure _ _)

theorem has_secrets_notDisk (c : Component) :
    eventsSatisfy notDiskEv (ComponentResource.has_secrets c) := by
  unfold ComponentResource.has_secrets
  exact eventsSatisfy_bind (api_objs_notDisk c) (fun _ => eventsSatisfy_pure _ _)

theorem destroy_notDisk (c : Component) :
    eventsSatisfy notDiskEv (ComponentResource.destroy c) := by
  unfold ComponentResource.destroy
  refine eventsSatisfy_bind (destroy_rc_notDisk c) (fun _ => ?_)
  refine eventsSatisfy_bind (has_service_notDisk c) (fun hv => ?_)
  refine eventsSatisfy_bind ?_ (fun _ => ?_)
  · unfold pyWhen
    cases hv
    · exact eventsSatisfy_pure _ _
    · exact destroy_service_notDisk c
  · refine eventsSatisfy_bind (has_secrets_notDisk c) (fun hs => ?_)
    unfold pyWhen
    cases hs
    · exact eventsSatisfy_pure _ _
    · exact destroy_secrets_notDisk c

/-- Claim C6: `destroy()` first scales the workload to zero replicas and
deletes it, then deletes the service documents if any exist, then the
credential documents if any exist, and never calls the provider's
disk-destruction operation (for any component and state, no trace of
`destroy` contains a `destroyDisk` event). -/
theorem claim_C6_destroy_order (c : Component) (st : CompState)
    {pairs : List (String × Handle)} {rc : Handle} {rcrest : List Handle} {rcName : JValue}
    {svcNames secNames : List JValue}
    (hb : buildHandles c.remote c.docs = .ok pairs)
    (hrc : objsOfKind pairs "ReplicationController" = rc :: rcrest)
    (hname : handleName rc = .ok rcName)
    (hsvn : namesOf (objsOfKind pairs "Service") = .ok svcNames)
    (hsen : namesOf (objsOfKind pairs "Secret") = .ok secNames) :
    ComponentResource.destroy c st =
      (st,
       [Event.apiRead, Event.scaleObj rc.obj 0, Event.deleteObj rc.obj, Event.apiRead] ++
       (if (objsOfKind pairs "Service").isEmpty then []
        else Event.apiRead ::
          (objsOfKind pairs "Service").map (fun h => Event.deleteObj h.obj)) ++
       Event.apiRead ::
       (if (objsOfKind pairs "Secret").isEmpty then []
        else Event.apiRead ::
          (objsOfKind pairs "Secret").map (fun h => Event.deleteObj h.obj)),
       .ok ()) ∧
    (∀ st2 ev, ev ∈ (ComponentResource.destroy c st2).2.1 →
      ∀ n, ev ≠ Event.destroyDisk n) := by
  refine ⟨?_, fun st2 ev hev => destroy_notDisk c st2 ev hev⟩
  have hA := destroy_rc_trace c st hb hrc hname
  have hB := has_service_eval c st hb
  have hD := has_secrets_eval c st hb
  have hC : pyWhen (!(objsOfKind pairs "Service").isEmpty)
      (ComponentResource.destroy_service c) st =
      (st,
       (if (objsOfKind pairs "Service").isEmpty then []
        else Event.apiRead ::
          (objsOfKind pairs "Service").map (fun h => Event.deleteObj h.obj)),
       .ok ()) := by
    cases hsE : (objsOfKind pairs "Service").isEmpty with
    | false => exact destroy_service_trace c st hb (namesOf_ok hsvn)
    | true => rfl
  have hE : pyWhen (!(objsOfKind pairs "Secret").isEmpty)
      (ComponentResource.destroy_secrets c) st =
      (st,
       (if (objsOfKind pairs "Secret").isEmpty then []
        else Event.apiRead ::
          (objsOfKind pairs "Secret").map (fun h => Event.deleteObj h.obj)),
       .ok ()) := by
    cases hsE : (objsOfKind pairs "Secret").isEmpty with
    | false => exact destroy_secrets_trace c st hb (namesOf_ok hsen)
    | true => rfl
  exact M.bind_ok hA (M.bind_ok hB (M.bind_ok hC (M.bind_ok hD hE)))

def c6rcDoc : JValue :=
  jobj [("kind", .str "ReplicationController"),
        ("metadata", jobj [("name", .str "api-web"),
                           ("labels", jobj [("kelproject.com/name", .str "api-web")])]),
        ("spec", jobj [("template", jobj [("spec", jobj [])])])]

def c6svcDoc : JValue :=
  jobj [("kind", .str "Service"), ("metadata", jobj [("name", .str "api-web")])]

def c6secDoc : JValue :=
  jobj [("kind", .str "Secret"), ("metadata", jobj [("name", .str "api-secrets")])]

def c6comp : Component :=
  { manifest := "api-web", requiresDisk := false, clusterName := "kel",
    resources := fun _ => none, docs := [c6rcDoc, c6svcDoc, c6secDoc],
    remote := fun _ => none,
    runningQuery := fun _ => .error "ObjectDoesNotExist" }

theorem claim_C6_destroy_order_witness :
    ComponentResource.destroy c6comp { cachedRunning := none } =
      ({ cachedRunning := none },
       [Event.apiRead, Event.scaleObj c6rcDoc 0, Event.deleteObj c6rcDoc,
        Event.apiRead, Event.apiRead, Event.deleteObj c6svcDoc,
        Event.apiRead, Event.apiRead, Event.deleteObj c6secDoc],
       .ok ()) :=
  (claim_C6_destroy_order c6comp { cachedRunning := none }
    rfl rfl rfl rfl rfl).1

/-! ## Claim C3: upgrade gating -/

/-- Claim C3: with the freshly computed key `k` and the running workload's
`deployment` label `dep`, `can_upgrade()` returns exactly `k != dep` — so
it returns false precisely when they are equal — and in the equal case
`upgrade()` returns immediately with only the read events of the
`can_upgrade` check: no credential update and no rolling-update
invocation. -/
theorem claim_C3_upgrade_gating (c : Component) (st st2 : CompState) (k : String)
    (gkEvs rEvs : List Event) (rrc : Handle) (md lbls dep : JValue)
    (hk : ComponentResource.generate_deployment_key c st = (st, gkEvs, .ok k))
    (hr : ComponentResource.running_rc c st = (st2, rEvs, .ok rrc))
    (hmd : jGet rrc.obj "metadata" = .ok md)
    (hlb : jGet md "labels" = .ok lbls)
    (hdp : jGet lbls "deployment" = .ok dep) :
    ComponentResource.can_upgrade c st = (st2, gkEvs ++ rEvs, .ok (!jeq (.str k) dep)) ∧
    ((ComponentResource.can_upgrade c st).2.2 = .ok false ↔ jeq (JValue.str k) dep = true) ∧
    (jeq (JValue.str k) dep = true →
      ComponentResource.upgrade c st = (st2, gkEvs ++ rEvs, .ok ()) ∧
      ∀ ev ∈ (ComponentResource.upgrade c st).2.1, isReadEvent ev = true) := by
  have h3 : liftE (jGet rrc.obj "metadata") st2 = (st2, [], .ok md) := by rw [hmd]; rfl
  have h4 : liftE (jGet md "labels") st2 = (st2, [], .ok lbls) := by rw [hlb]; rfl
  have h5 : liftE (jGet lbls "deployment") st2 = (st2, [], .ok dep) := by rw [hdp]; rfl
  have s5 : (liftE (jGet lbls "deployment") >>= fun dep2 =>
      (pure (!jeq (JValue.str k) dep2) : M Bool)) st2 =
      (st2, [], .ok (!jeq (JValue.str k) dep)) :=
    M.bind_ok h5 (M.pure_def _ st2)
  have s4 : (liftE (jGet md "labels") >>= fun lbls2 =>
      liftE (jGet lbls2 "deployment") >>= fun dep2 =>
      (pure (!jeq (JValue.str k) dep2) : M Bool)) st2 =
      (st2, [], .ok (!jeq (JValue.str k) dep)) :=
    M.bind_ok h4 s5
  have s3 : (liftE (jGet rrc.obj "metadata") >>= fun md2 =>
      liftE (jGet md2 "labels") >>= fun lbls2 =>
      liftE (jGet lbls2 "deployment") >>= fun dep2 =>
      (pure (!jeq (JValue.str k) dep2) : M Bool)) st2 =
      (st2, [], .ok (!jeq (JValue.str k) dep)) :=
    M.bind_ok h3 s4
  have s2 : (ComponentResource.running_rc c >>= fun rrc2 =>
      liftE (jGet rrc2.obj "metadata") >>= fun md2 =>
      liftE (jGet md2 "labels") >>= fun lbls2 =>
      liftE (jGet lbls2 "deployment") >>= fun dep2 =>
      (pure (!jeq (JValue.str k) dep2) : M Bool)) st =
      (st2, rEvs, .ok (!jeq (JValue.str k) dep)) :=
    (M.bind_ok hr s3).trans (by simp)
  have hCan : ComponentResource.can_upgrade c st =
      (st2, gkEvs ++ rEvs, .ok (!jeq (.str k) dep)) := by
    unfold ComponentResource.can_upgrade
    exact M.bind_ok hk s2
  refine ⟨hCan, ?_, ?_⟩
  · rw [hCan]
    simp
  · intro hEq
    have hb : (!jeq (JValue.str k) dep) = false := by rw [hEq]; rfl
    have hf : (if (!jeq (JValue.str k) dep) = true then (do
        ComponentResource.update_secrets c
        let _old ← ComponentResource.running_rc c
        let _new ← ComponentResource.get_rc c
        emit .rollingUpdate)
      else (pure () : M Unit)) st2 = (st2, [], .ok ()) := by
      rw [hb]
      rfl
    have hup : ComponentResource.upgrade c st = (st2, gkEvs ++ rEvs, .ok ()) := by
      unfold ComponentResource.upgrade
      refine (M.bind_ok hCan hf).trans ?_
      simp
    refine ⟨hup, ?_⟩
    intro ev hev
    rw [hup] at hev
    rcases List.mem_append.mp hev with hl | hrr
    · exact generate_deployment_key_readsOnly c st ev (by rw [hk]; exact hl)
    · exact running_rc_readsOnly c st ev (by rw [hr]; exact hrr)

def c3rcDoc : JValue :=
  jobj [("kind", .str "ReplicationController"),
        ("metadata", jobj [("name", .str "kube-dns"),
                           ("labels", jobj [("kelproject.com/name", .str "kube-dns")])]),
        ("spec", jobj [("template", jobj [("spec", jobj [])])])]

def c3running : Handle :=
  { obj := jobj [("metadata", jobj [("labels", jobj [("deployment", .str "17d91bd0")])])],
    reloaded := none }

def c3comp : Component :=
  { manifest := "kube-dns", requiresDisk := false, clusterName := "kel",
    resources := fun _ => none, docs := [c3rcDoc], remote := fun _ => none,
    runningQuery := fun _ => .error "ObjectDoesNotExist" }

theorem claim_C3_upgrade_gating_witness :
    ((ComponentResource.can_upgrade c3comp { cachedRunning := some c3running }).2.2 =
        .ok false ↔
      jeq (JValue.str "17d91bd0") (JValue.str "17d91bd0") = true) ∧
    ComponentResource.upgrade c3comp { cachedRunning := some c3running } =
      ({ cachedRunning := some c3running }, [Event.apiRead, Event.apiRead], .ok ()) :=
  ⟨(claim_C3_upgrade_gating c3comp { cachedRunning := some c3running }
      { cachedRunning := some c3running } "17d91bd0" [Event.apiRead, Event.apiRead] []
      c3running (jobj [("labels", jobj [("deployment", .str "17d91bd0")])])
      (jobj [("deployment", .str "17d91bd0")]) (.str "17d91bd0")
      rfl rfl rfl rfl rfl).2.1,
   ((claim_C3_upgrade_gating c3comp { cachedRunning := some c3running }
      { cachedRunning := some c3running } "17d91bd0" [Event.apiRead, Event.apiRead] []
      c3running (jobj [("labels", jobj [("deployment", .str "17d91bd0")])])
      (jobj [("deployment", .str "17d91bd0")]) (.str "17d91bd0")
      rfl rfl rfl rfl rfl).2.2 rfl).1⟩
